import Mathlib

/-!
Verification development for the PBI-API-Beacon repository: a shallow Lean
embedding of its resilient request layer (`src/APIBeacon/api.py`), its error
classes (`src/APIBeacon/api_custom_exceptions.py`) and its entity graph
(`workspace.py`, `report.py`, `user.py`, `semantic_model.py`, `app.py`,
`service.py`), together with theorems settling the frozen claims about the
specification.

Conventions of the embedding:
- JSON values decoded by `response.json()` are modelled by the inductive
  `Json`; a decoded Python `dict` is `Json.jobj` with its key/value pairs in
  insertion order, `None` is `Json.null`.
- Python object references (the `parent` back-references and object identity)
  are modelled as plain `Nat` heap references; no claim inspects their value.
- Raised Python exceptions are modelled by `PyExc` (class plus message) and
  fallible code returns `Except PyExc`.
- Logging calls (`self.logger...`) are pure observations and are dropped;
  `time.sleep(2 ** attempt)` is recorded in a trace of sleep durations.
- The network is modelled by a transport function `Nat → Attempt` giving the
  outcome of each attempt of `requests.get/post/delete`.
-/

/-- A decoded JSON value as `response.json()` yields it: `None`, `bool`,
`int`, `str`, `list`, or `dict` (key/value pairs in order). -/
inductive Json where
  | null
  | jbool (b : Bool)
  | jnum (n : Int)
  | jstr (s : String)
  | jarr (xs : List Json)
  | jobj (fields : List (String × Json))
deriving Repr

mutual

/-- Structural equality of decoded JSON values (Python `==` on the decoded
objects). -/
def Json.beq : Json → Json → Bool
  | .null, .null => true
  | .jbool a, .jbool b => a == b
  | .jnum a, .jnum b => a == b
  | .jstr a, .jstr b => a == b
  | .jarr xs, .jarr ys => Json.beqList xs ys
  | .jobj fs, .jobj gs => Json.beqFields fs gs
  | _, _ => false

def Json.beqList : List Json → List Json → Bool
  | [], [] => true
  | x :: xs, y :: ys => Json.beq x y && Json.beqList xs ys
  | _, _ => false

def Json.beqFields : List (String × Json) → List (String × Json) → Bool
  | [], [] => true
  | (k, v) :: fs, (l, w) :: gs => k == l && Json.beq v w && Json.beqFields fs gs
  | _, _ => false

end

mutual

theorem Json.beq_iff : ∀ a b : Json, Json.beq a b = true ↔ a = b
  | .null, .null => by simp [Json.beq]
  | .jbool _, .jbool _ => by simp [Json.beq]
  | .jnum _, .jnum _ => by simp [Json.beq]
  | .jstr _, .jstr _ => by simp [Json.beq]
  | .jarr xs, .jarr ys => by
      simp only [Json.beq, Json.jarr.injEq]
      exact Json.beqList_iff xs ys
  | .jobj fs, .jobj gs => by
      simp only [Json.beq, Json.jobj.injEq]
      exact Json.beqFields_iff fs gs
  | .null, .jbool _ => by simp [Json.beq]
  | .null, .jnum _ => by simp [Json.beq]
  | .null, .jstr _ => by simp [Json.beq]
  | .null, .jarr _ => by simp [Json.beq]
  | .null, .jobj _ => by simp [Json.beq]
  | .jbool _, .null => by simp [Json.beq]
  | .jbool _, .jnum _ => by simp [Json.beq]
  | .jbool _, .jstr _ => by simp [Json.beq]
  | .jbool _, .jarr _ => by simp [Json.beq]
  | .jbool _, .jobj _ => by simp [Json.beq]
  | .jnum _, .null => by simp [Json.beq]
  | .jnum _, .jbool _ => by simp [Json.beq]
  | .jnum _, .jstr _ => by simp [Json.beq]
  | .jnum _, .jarr _ => by simp [Json.beq]
  | .jnum _, .jobj _ => by simp [Json.beq]
  | .jstr _, .null => by simp [Json.beq]
  | .jstr _, .jbool _ => by simp [Json.beq]
  | .jstr _, .jnum _ => by simp [Json.beq]
  | .jstr _, .jarr _ => by simp [Json.beq]
  | .jstr _, .jobj _ => by simp [Json.beq]
  | .jarr _, .null => by simp [Json.beq]
  | .jarr _, .jbool _ => by simp [Json.beq]
  | .jarr _, .jnum _ => by simp [Json.beq]
  | .jarr _, .jstr _ => by simp [Json.beq]
  | .jarr _, .jobj _ => by simp [Json.beq]
  | .jobj _, .null => by simp [Json.beq]
  | .jobj _, .jbool _ => by simp [Json.beq]
  | .jobj _, .jnum _ => by simp [Json.beq]
  | .jobj _, .jstr _ => by simp [Json.beq]
  | .jobj _, .jarr _ => by simp [Json.beq]

theorem Json.beqList_iff : ∀ xs ys : List Json, Json.beqList xs ys = true ↔ xs = ys
  | [], [] => by simp [Json.beqList]
  | x :: xs, y :: ys => by
      simp only [Json.beqList, Bool.and_eq_true, List.cons.injEq]
      exact and_congr (Json.beq_iff x y) (Json.beqList_iff xs ys)
  | [], _ :: _ => by simp [Json.beqList]
  | _ :: _, [] => by simp [Json.beqList]

theorem Json.beqFields_iff :
    ∀ fs gs : List (String × Json), Json.beqFields fs gs = true ↔ fs = gs
  | [], [] => by simp [Json.beqFields]
  | (k, v) :: fs, (l, w) :: gs => by
      simp only [Json.beqFields, Bool.and_eq_true, List.cons.injEq, Prod.mk.injEq,
        beq_iff_eq, Json.beq_iff v w, Json.beqFields_iff fs gs]
  | [], _ :: _ => by simp [Json.beqFields]
  | _ :: _, [] => by simp [Json.beqFields]

end

instance : DecidableEq Json := fun a b =>
  decidable_of_iff (Json.beq a b = true) (Json.beq_iff a b)

/-- Python `dict.get(k)` on a decoded JSON object: the value stored under key
`k`, or `none` when the key is absent (Python `None`). -/
def pyGet (fields : List (String × Json)) (k : String) : Option Json :=
  (fields.find? (fun p => p.1 = k)).map (fun p => p.2)

/-- Whether the decoded body is a Python `dict` (`isinstance(data, dict)`). -/
def Json.isDict : Json → Bool
  | .jobj _ => true
  | _ => false

/-- The exception classes of the program, as defined in
`api_custom_exceptions.py` plus the builtin `Exception` and `TypeError`.
Each custom class is one `class X(Base)` line of that file. -/
inductive PyClass where
  | exception
  | typeError
  | apiError
  | unauthorizedError
  | tokenExpiredError
  | tooManyRequestsError
  | internalServerError
  | jsonDecodeError
  | powerBIEntityNotFoundError
deriving DecidableEq, Repr

/-- The direct base class of each class, read off the `class X(Base):` headers
of `api_custom_exceptions.py` (builtin `TypeError` derives from `Exception`
via the builtin chain). `Exception` itself is the root here. -/
def directBase : PyClass → Option PyClass
  | .exception => none
  | .typeError => some .exception
  | .apiError => some .exception
  | .unauthorizedError => some .exception
  | .tokenExpiredError => some .exception
  | .tooManyRequestsError => some .exception
  | .internalServerError => some .exception
  | .jsonDecodeError => some .apiError
  | .powerBIEntityNotFoundError => some .exception

/-- Python `issubclass` (what `except C` tests on an instance of a class): the
reflexive-transitive closure of `directBase`. The hierarchy of this program
has depth at most two, so the closure is unrolled twice. -/
def isSubclass (c d : PyClass) : Bool :=
  c == d ||
    (match directBase c with
     | none => false
     | some b => b == d ||
         (match directBase b with
          | none => false
          | some b2 => b2 == d))

/-- A raised Python exception: its class and its message string. -/
structure PyExc where
  cls : PyClass
  msg : String
deriving DecidableEq, Repr

/-- An HTTP response as the `requests` library hands it back: status code and
body text (`response.text`; `response.json()` is modelled separately by a
`Json` value where a caller parses the body). -/
structure Resp where
  status : Nat
  text : String
deriving DecidableEq, Repr

/-- The `error_handlers` table of `AbstractPbiAPI._handle_response`, with the
`.get(status_code, (APIError, "API error"))` default. -/
def error_handlers (status : Nat) : PyClass × String :=
  match status with
  | 401 => (.unauthorizedError, "Unauthorized")
  | 403 => (.tokenExpiredError, "Token expired")
  | 404 => (.powerBIEntityNotFoundError, "Cannot find entity or remove the user")
  | 429 => (.tooManyRequestsError, "Too many requests")
  | 500 => (.internalServerError, "Internal server error")
  | _ => (.apiError, "API error")

/-- `AbstractPbiAPI._handle_response`: return the response when the status is
in `[200, 201, 202]`, otherwise raise the error class of the table with
message `f"(message) (status_code): (response.text)"`. -/
def _handle_response (r : Resp) : Except PyExc Resp :=
  if [200, 201, 202].contains r.status then
    Except.ok r
  else
    let p := error_handlers r.status
    Except.error ⟨p.1, p.2 ++ " " ++ toString r.status ++ ": " ++ r.text⟩

/-- Outcome of one call of `requests.get/post/delete`: a `Timeout`, a
transport-level failure (`TooManyRedirects`, `HTTPError` or any other
`RequestException`, carrying its rendered message), or a response. -/
inductive Attempt where
  | timeout (msg : String)
  | transportError (msg : String)
  | resp (r : Resp)

/-- What one `make_api_*_request` call did: its result, how many attempts the
loop ran, and the durations of the `time.sleep(2 ** attempt)` calls it made,
in order. -/
structure RunTrace where
  result : Except PyExc Resp
  attempts : Nat
  sleeps : List Nat
deriving Repr

/-- The shared retry loop of `make_api_get_request`, `make_api_post_request`
and `make_api_delete_request` (their bodies are identical up to the HTTP verb
and the first `except` clause): iterate `attempt` over `range(max_retries)`;
on the attempt outcome

- `Timeout`: log, `time.sleep(2 ** attempt)`, continue;
- transport failure `e`: raise `APIError(f"Request error: (str(e))")`;
- a response: return `_handle_response(response, url)`; when that raises and
  the method is POST — whose clause is `except (Timeout, TooManyRequestsError)`
  (`retryOn429 = true`) — an exception that is an instance of
  `TooManyRequestsError` is also slept on and retried;

and after the loop raise `APIError("API request failed after maximum
retries.")`. -/
def requestLoop (retryOn429 : Bool) (transport : Nat → Attempt) :
    Nat → Nat → Nat → List Nat → RunTrace
  | _, 0, made, sleeps =>
      ⟨Except.error ⟨.apiError, "API request failed after maximum retries."⟩, made, sleeps⟩
  | attempt, remaining + 1, made, sleeps =>
      match transport attempt with
      | .timeout _ =>
          requestLoop retryOn429 transport (attempt + 1) remaining (made + 1)
            (sleeps ++ [2 ^ attempt])
      | .transportError m =>
          ⟨Except.error ⟨.apiError, "Request error: " ++ m⟩, made + 1, sleeps⟩
      | .resp r =>
          match _handle_response r with
          | Except.ok v => ⟨Except.ok v, made + 1, sleeps⟩
          | Except.error e =>
              if retryOn429 && isSubclass e.cls .tooManyRequestsError then
                requestLoop retryOn429 transport (attempt + 1) remaining (made + 1)
                  (sleeps ++ [2 ^ attempt])
              else
                ⟨Except.error e, made + 1, sleeps⟩

/-- `AbstractPbiAPI.make_api_get_request` over a transport, keeping only the
`max_retries` argument (url, headers, proxies and timeout only parameterise
the transport). Its `except` clauses retry on `Timeout` alone. -/
def make_api_get_request (transport : Nat → Attempt) (max_retries : Nat) : RunTrace :=
  requestLoop false transport 0 max_retries 0 []

/-- `AbstractPbiAPI.make_api_post_request`: same loop, but its first clause is
`except (Timeout, TooManyRequestsError)`, so a raised `TooManyRequestsError`
is retried like a timeout. -/
def make_api_post_request (transport : Nat → Attempt) (max_retries : Nat) : RunTrace :=
  requestLoop true transport 0 max_retries 0 []

/-- `AbstractPbiAPI.make_api_delete_request`: same loop as GET, retrying on
`Timeout` alone. -/
def make_api_delete_request (transport : Nat → Attempt) (max_retries : Nat) : RunTrace :=
  requestLoop false transport 0 max_retries 0 []

/-- The class of the exception a result raised, if it raised one. -/
def errClassOf {α : Type} : Except PyExc α → Option PyClass
  | Except.error e => some e.cls
  | Except.ok _ => none

/-- `Report` (`report.py`): a snapshot of one JSON object; each attribute is
`kwargs.get("...")` so a missing key yields `none` (Python `None`). The
`self.api = PbiAPI(proxy_url=None).pbi_api` line is the shared-client access
modelled separately by `pbi_api_access`; `parent` is the owning object
reference. -/
structure Report where
  original_data : List (String × Json)
  parent : Nat
  app_id : Option Json
  dataset_id : Option Json
  description : Option Json
  embed_url : Option Json
  id : Option Json
  name : Option Json
  original_report_id : Option Json
  type : Option Json
  web_url : Option Json
  modified_by : Option Json
  created_by : Option Json
deriving DecidableEq, Repr

/-- `Report.__init__(self, parent, **kwargs)` field extraction. -/
def Report.fromKwargs (parent : Nat) (kwargs : List (String × Json)) : Report where
  original_data := kwargs
  parent := parent
  app_id := pyGet kwargs "appId"
  dataset_id := pyGet kwargs "datasetId"
  description := pyGet kwargs "description"
  embed_url := pyGet kwargs "embedUrl"
  id := pyGet kwargs "id"
  name := pyGet kwargs "name"
  original_report_id := pyGet kwargs "originalReportId"
  type := pyGet kwargs "reportType"
  web_url := pyGet kwargs "webUrl"
  modified_by := pyGet kwargs "modifiedBy"
  created_by := pyGet kwargs "createdBy"

/-- `Report.__eq__` restricted to two `Report`s (the `isinstance` guard is the
type of the arguments): compare `dataset_id` and `id`. -/
def pyEqReport (a b : Report) : Bool :=
  decide (a.dataset_id = b.dataset_id) && decide (a.id = b.id)

/-- `User` (`user.py`). -/
structure User where
  original_data : List (String × Json)
  parent : Nat
  email : Option Json
  access_right : Option Json
  principal_type : Option Json
  name : Option Json
deriving DecidableEq, Repr

/-- `User.__init__(self, parent, **kwargs)` field extraction. -/
def User.fromKwargs (parent : Nat) (kwargs : List (String × Json)) : User where
  original_data := kwargs
  parent := parent
  email := pyGet kwargs "emailAddress"
  access_right := pyGet kwargs "groupUserAccessRight"
  principal_type := pyGet kwargs "principalType"
  name := pyGet kwargs "displayName"

/-- `User.__eq__` restricted to two `User`s: compare `email`. -/
def pyEqUser (a b : User) : Bool :=
  decide (a.email = b.email)

/-- `SemanticModel` (`semantic_model.py`). -/
structure SemanticModel where
  original_data : List (String × Json)
  parent : Nat
  id : Option Json
  name : Option Json
  configured_by : Option Json
  is_refreshable : Option Json
  created_date : Option Json
  storage_mode : Option Json
deriving DecidableEq, Repr

/-- `SemanticModel.__eq__` restricted to two `SemanticModel`s: compare `id`. -/
def pyEqSemanticModel (a b : SemanticModel) : Bool :=
  decide (a.id = b.id)

/-- `App` (`app.py`). -/
structure App where
  original_data : List (String × Json)
  service : Nat
  id : Option Json
  description : Option Json
  name : Option Json
  published_by : Option Json
  last_update : Option Json
deriving DecidableEq, Repr

/-- `App.__eq__` restricted to two `App`s: compare `id`. -/
def pyEqApp (a b : App) : Bool :=
  decide (a.id = b.id)

/-- `Workspace` (`workspace.py`): the kwargs snapshot plus its child
collections. `self.api` is the shared client (modelled by `pbi_api_access`),
`selfRef` is the object reference passed as `parent` when children are built.
The `dataflows`, `dashboards` and `data_sources` sets are initialised empty
and — `get_dashboards` aside, whose `Dashboard` class (`dashboard.py`) is not
among the sources — never populated; no claim touches them, so they are not
modelled. -/
structure Workspace where
  original_data : List (String × Json)
  parent : Nat
  selfRef : Nat
  id : Option Json
  name : Option Json
  is_read_only : Option Json
  is_on_dedicated_capacity : Option Json
  capacity_id : Option Json
  reports : List Report
  semantic_models : List SemanticModel
  users : List User
deriving DecidableEq, Repr

/-- `Workspace.__init__(self, parent, **kwargs)`: field extraction, child
collections start empty. -/
def Workspace.fromKwargs (parent selfRef : Nat) (kwargs : List (String × Json)) : Workspace where
  original_data := kwargs
  parent := parent
  selfRef := selfRef
  id := pyGet kwargs "id"
  name := pyGet kwargs "name"
  is_read_only := pyGet kwargs "isReadOnly"
  is_on_dedicated_capacity := pyGet kwargs "isOnDedicatedCapacity"
  capacity_id := pyGet kwargs "capacityId"
  reports := []
  semantic_models := []
  users := []

/-- `Workspace.__eq__` restricted to two `Workspace`s: compare `id`. -/
def pyEqWorkspace (a b : Workspace) : Bool :=
  decide (a.id = b.id)

/-- Python `hash` of an entity is `hash` of its identity-key tuple; the
interpreter tuple-hash itself is an opaque parameter `h`, so every theorem
about entity hashing holds for whatever function CPython uses.
`Report.__hash__` is `hash((self.dataset_id, self.id))`. -/
def pyHashReport (h : Option Json × Option Json → Int) (r : Report) : Int :=
  h (r.dataset_id, r.id)

/-- `Workspace.__hash__` is `hash((self.id))` (parentheses around a single
expression do not build a tuple). -/
def pyHashWorkspace (h : Option Json → Int) (w : Workspace) : Int :=
  h w.id

/-- `User.__hash__` is `hash((self.email))`. -/
def pyHashUser (h : Option Json → Int) (u : User) : Int :=
  h u.email

/-- Adding one element to a Python `set`: when an equal element (under the
entity `__eq__`) is already present the set is unchanged (the first-inserted
element is kept), otherwise the element is added. -/
def pyInsert {α : Type} (eqb : α → α → Bool) (xs : List α) (x : α) : List α :=
  if xs.any (fun y => eqb y x) then xs else xs ++ [x]

/-- A Python set comprehension over a list of elements, in iteration order. -/
def pySetOf {α : Type} (eqb : α → α → Bool) (xs : List α) : List α :=
  xs.foldl (pyInsert eqb) []

/-- Python `x in s` for a set modelled as a deduplicated list. -/
def pyMem {α : Type} (eqb : α → α → Bool) (x : α) (xs : List α) : Bool :=
  xs.any (fun y => eqb x y)

/-- Python `str()` of a decoded JSON value held in an attribute (used by the
f-string error messages); `none` is an absent key, rendered like Python
`None`. The rendering of nested lists and dicts is abbreviated — no claim
depends on it. -/
def pyStr : Option Json → String
  | none => "None"
  | some .null => "None"
  | some (.jbool true) => "True"
  | some (.jbool false) => "False"
  | some (.jnum n) => toString n
  | some (.jstr s) => s
  | some (.jarr _) => "[...]"
  | some (.jobj _) => "\x7b...\x7d"

/-- One element of the `"value"` array as `Entity(self, **element)` consumes
it: it must be a `dict` (otherwise `**` raises `TypeError`), and must not
carry a `"parent"` or `"self"` key (either would collide with the positional
arguments of `__init__` and raise `TypeError`). -/
def kwargsOf (j : Json) : Option (List (String × Json)) :=
  match j with
  | .jobj fs =>
      if (pyGet fs "parent").isSome || (pyGet fs "self").isSome then none else some fs
  | _ => none

/-- All elements of the `"value"` array as kwargs, or `none` when any element
would make the comprehension raise. The comprehension (the right-hand side of
the assignment) is evaluated in full before the collection attribute is
assigned, so a failure leaves the attribute untouched. -/
def kwargsListOf (items : List Json) : Option (List (List (String × Json))) :=
  items.mapM kwargsOf

/-- `Workspace.get_reports`, from the parsed body of the GET to
`groups/(id)/reports`: require a `dict` body, build one `Report` per element
of its `"value"` array (passing `self` as parent) and assign the resulting
set wholesale to `self.reports`; a non-`dict` body raises
`TypeError(f"Failed to get reports from workspace (self.name).")` and — like
any raise inside the comprehension — leaves the workspace unchanged. The
result pairs the raised-or-returned outcome with the post-state of the
workspace object. -/
def Workspace.get_reports (ws : Workspace) (body : Json) : Except PyExc Unit × Workspace :=
  match body with
  | .jobj fields =>
      match pyGet fields "value" with
      | some (.jarr items) =>
          match kwargsListOf items with
          | some kws =>
              (Except.ok (),
               { ws with reports := pySetOf pyEqReport (kws.map (Report.fromKwargs ws.selfRef)) })
          | none =>
              (Except.error ⟨.typeError, "interpreter TypeError while building the set"⟩, ws)
      | _ =>
          (Except.error ⟨.typeError, "interpreter TypeError: value is not iterable"⟩, ws)
  | _ =>
      (Except.error
        ⟨.typeError, "Failed to get reports from workspace " ++ pyStr ws.name ++ "."⟩, ws)

/-- `Workspace.get_users`, from the parsed body of the GET to
`groups/(id)/users?...`: same pattern as `get_reports`, assigning
`self.users`; the non-`dict` branch raises
`TypeError("The response must be a dictionary.")`. -/
def Workspace.get_users (ws : Workspace) (body : Json) : Except PyExc Unit × Workspace :=
  match body with
  | .jobj fields =>
      match pyGet fields "value" with
      | some (.jarr items) =>
          match kwargsListOf items with
          | some kws =>
              (Except.ok (),
               { ws with users := pySetOf pyEqUser (kws.map (User.fromKwargs ws.selfRef)) })
          | none =>
              (Except.error ⟨.typeError, "interpreter TypeError while building the set"⟩, ws)
      | _ =>
          (Except.error ⟨.typeError, "interpreter TypeError: value is not iterable"⟩, ws)
  | _ =>
      (Except.error ⟨.typeError, "The response must be a dictionary."⟩, ws)

/-- `Service` (`service.py`): holds the shared client (modelled by
`pbi_api_access`), the workspace set and the app set. -/
structure Service where
  selfRef : Nat
  workspaces : List Workspace
  apps : List App
deriving DecidableEq, Repr

/-- `Service.get_workspaces`, from the parsed body of the GET to `groups?...`:
require a `dict` body, build one `Workspace` per element of its `"value"`
array and assign the set wholesale to `self.workspaces`; a non-`dict` body
raises `TypeError("The response must be a dictionary.")`. The fresh object
references of the new workspaces are modelled by their index in the array. -/
def Service.get_workspaces (svc : Service) (body : Json) : Except PyExc Unit × Service :=
  match body with
  | .jobj fields =>
      match pyGet fields "value" with
      | some (.jarr items) =>
          match kwargsListOf items with
          | some kws =>
              (Except.ok (),
               { svc with
                  workspaces := pySetOf pyEqWorkspace
                    (kws.enum.map (fun p => Workspace.fromKwargs svc.selfRef p.1 p.2)) })
          | none =>
              (Except.error ⟨.typeError, "interpreter TypeError while building the set"⟩, svc)
      | _ =>
          (Except.error ⟨.typeError, "interpreter TypeError: value is not iterable"⟩, svc)
  | _ =>
      (Except.error ⟨.typeError, "The response must be a dictionary."⟩, svc)

/-- `AbstractPbiAPI.authenticate` / `reauthenticate` (`api.py`), viewed
through the outcomes of its successive token-decode attempts. Each call of
`authenticate` obtains a token (the saved one, or a fresh interactive one),
builds the header, and calls `__user_info`, which decodes the token once; on
`jwt` decode errors — and on any other exception — it calls `reauthenticate`,
which clears `saved_token` and calls `authenticate` again. The list holds the
outcome of each decode attempt in order (`true` = decode succeeded); the
result is the number of `reauthenticate` calls performed before termination,
and `none` when the supplied outcomes are exhausted without a success — the
code itself has no bound and keeps re-authenticating. -/
def authenticateRun : List Bool → Option Nat
  | [] => none
  | true :: _ => some 0
  | false :: rest => (authenticateRun rest).map (fun n => n + 1)

/-- The `PbiAPI` singleton object (`api.py`): constructor arguments and the
lazily created `_pbi_api` client, identified by its construction index. -/
structure PbiAPIObj where
  proxy_url : Option String
  saved_token : Option String
  _pbi_api : Option Nat
deriving DecidableEq, Repr

/-- Process-wide state behind `PbiAPI`: the one instance `SingletonMeta`
stores for the class (if created yet) and how many `AbstractPbiAPI` clients
have been constructed. -/
structure ProcState where
  pbiInstance : Option PbiAPIObj
  clientsConstructed : Nat
deriving DecidableEq, Repr

/-- A fresh process: no `PbiAPI` instance, no client constructed. -/
def freshProc : ProcState := ⟨none, 0⟩

/-- Modelled from the spec: `SingletonMeta` (`singleton.py`, which `api.py`
and `logger.py` import but which is not among the sources) makes
`PbiAPI(...)` return the one per-process instance, creating it on the first
call and ignoring the arguments of later calls — "guarantee that all entities
and the top-level service share exactly one ResilientClient per process,
constructed lazily on first access, regardless of how many places request
it". `pbi_api_access` is one `PbiAPI(args).pbi_api` use as written in
`Service.__init__`, `Workspace.__init__` and `Report.__init__`: the
`pbi_api` property then builds `AbstractPbiAPI` only when `_pbi_api` is still
`None`, and returns the stored client ever after. -/
def pbi_api_access (args : Option String × Option String) (s : ProcState) :
    Nat × ProcState :=
  let inst :=
    match s.pbiInstance with
    | some o => o
    | none => ⟨args.1, args.2, none⟩
  match inst._pbi_api with
  | some c => (c, { s with pbiInstance := some inst })
  | none =>
      let c := s.clientsConstructed
      (c, { pbiInstance := some { inst with _pbi_api := some c },
            clientsConstructed := c + 1 })

/-- A sequence of `PbiAPI(args).pbi_api` accesses (one per constructed
`Service`, `Workspace` or `Report`), returning the client each access saw and
the final process state. -/
def pbi_api_accessList (argsList : List (Option String × Option String))
    (s : ProcState) : List Nat × ProcState :=
  match argsList with
  | [] => ([], s)
  | a :: rest =>
      let p := pbi_api_access a s
      let q := pbi_api_accessList rest p.2
      (p.1 :: q.1, q.2)

/-! Sample data: concrete entities and response bodies used by the concrete
parts of the claims. -/

def reportA : Report :=
  Report.fromKwargs 1
    [("datasetId", Json.jstr "d1"), ("id", Json.jstr "r1"), ("name", Json.jstr "Alpha")]

def reportA_renamed : Report :=
  Report.fromKwargs 1
    [("datasetId", Json.jstr "d1"), ("id", Json.jstr "r1"), ("name", Json.jstr "Beta")]

def reportB : Report :=
  Report.fromKwargs 1
    [("datasetId", Json.jstr "d2"), ("id", Json.jstr "r2"), ("name", Json.jstr "Gamma")]

def wsSales : Workspace :=
  Workspace.fromKwargs 0 1 [("id", Json.jstr "w1"), ("name", Json.jstr "Sales")]

/-- A workspace whose `reports` set is already populated (prior value). -/
def wsPrior : Workspace := { wsSales with reports := [reportA] }

/-- A collection body whose `"value"` array holds reports A and B. -/
def bodyAB : Json :=
  Json.jobj [("value", Json.jarr
    [Json.jobj [("datasetId", Json.jstr "d1"), ("id", Json.jstr "r1"), ("name", Json.jstr "Alpha")],
     Json.jobj [("datasetId", Json.jstr "d2"), ("id", Json.jstr "r2"), ("name", Json.jstr "Gamma")]])]

/-- A later collection body whose `"value"` array omits report A. -/
def bodyB : Json :=
  Json.jobj [("value", Json.jarr
    [Json.jobj [("datasetId", Json.jstr "d2"), ("id", Json.jstr "r2"), ("name", Json.jstr "Gamma")]])]

/-! Helper lemmas shared by the claim theorems. -/

theorem handle_ok_status (x v : Resp) (h : _handle_response x = Except.ok v) :
    v = x ∧ ([200, 201, 202] : List Nat).contains x.status = true := by
  unfold _handle_response at h
  by_cases hc : ([200, 201, 202] : List Nat).contains x.status
  · rw [if_pos hc] at h
    injection h with h1
    exact ⟨h1.symm, hc⟩
  · rw [if_neg hc] at h
    simp at h

theorem requestLoop_ok_status (flag : Bool) (transport : Nat → Attempt) :
    ∀ (remaining attempt made : Nat) (sleeps : List Nat) (r : Resp),
      (requestLoop flag transport attempt remaining made sleeps).result = Except.ok r →
      ([200, 201, 202] : List Nat).contains r.status = true := by
  intro remaining
  induction remaining with
  | zero => intro attempt made sleeps r h; simp [requestLoop] at h
  | succ n ih =>
      intro attempt made sleeps r h
      unfold requestLoop at h
      cases ht : transport attempt with
      | timeout m => rw [ht] at h; exact ih _ _ _ r h
      | transportError m => rw [ht] at h; simp at h
      | resp x =>
          rw [ht] at h
          dsimp only at h
          cases hr : _handle_response x with
          | ok v =>
              rw [hr] at h
              dsimp only at h
              simp at h
              obtain ⟨hv, hc⟩ := handle_ok_status x v hr
              rw [h] at hv
              rw [hv]
              exact hc
          | error e =>
              rw [hr] at h
              dsimp only at h
              by_cases hcond : (flag && isSubclass e.cls .tooManyRequestsError) = true
              · rw [if_pos hcond] at h; exact ih _ _ _ r h
              · rw [if_neg hcond] at h; simp at h

theorem accessList_stable (rest : List (Option String × Option String))
    (x y : Option String) (c n : Nat) :
    pbi_api_accessList rest ⟨some ⟨x, y, some c⟩, n⟩ =
      (List.replicate rest.length c, ⟨some ⟨x, y, some c⟩, n⟩) := by
  induction rest with
  | nil => rfl
  | cons a rest ih =>
      simp [pbi_api_accessList, pbi_api_access, ih, List.replicate]

theorem getReports_wholesale (ws : Workspace) (body : Json) (out : Workspace)
    (h : Workspace.get_reports ws body = (Except.ok (), out)) :
    out.reports = ((Workspace.get_reports { ws with reports := [] } body).2).reports := by
  cases body with
  | jobj fields =>
      unfold Workspace.get_reports at h ⊢
      dsimp only at h ⊢
      cases hv : pyGet fields "value" with
      | none => rw [hv] at h; simp at h
      | some v =>
          cases v with
          | jarr items =>
              rw [hv] at h
              dsimp only at h ⊢
              cases hk : kwargsListOf items with
              | none => rw [hk] at h; simp at h
              | some kws =>
                  rw [hk] at h
                  dsimp only at h ⊢
                  simp only [Prod.mk.injEq] at h
                  rw [← h.2]
          | null => rw [hv] at h; simp at h
          | jbool b => rw [hv] at h; simp at h
          | jnum m => rw [hv] at h; simp at h
          | jstr str => rw [hv] at h; simp at h
          | jobj gs => rw [hv] at h; simp at h
  | null => simp [Workspace.get_reports] at h
  | jbool b => simp [Workspace.get_reports] at h
  | jnum m => simp [Workspace.get_reports] at h
  | jstr str => simp [Workspace.get_reports] at h
  | jarr xs => simp [Workspace.get_reports] at h

/-! The claim theorems. -/

/-- Claim C1 (amended): status classification holds for all three request
methods — 401 maps to `UnauthorizedError`, 403 to `TokenExpiredError`, 404 to
`PowerBIEntityNotFoundError`, 429 to `TooManyRequestsError`, 500 to
`InternalServerError` and any other non-success status (for example 599) to
the generic `APIError` — and `make_api_get_request` and
`make_api_delete_request` raise every classified error immediately after one
attempt with no retry and no sleep; `make_api_post_request` does the same for
every classified error except `TooManyRequestsError` (429), which its
`except (Timeout, TooManyRequestsError)` clause catches and retries with
exponential backoff, surfacing the generic exhaustion `APIError` when every
attempt returns 429. -/
theorem C1_status_mapping_and_no_retry :
    (∀ t : String, errClassOf (_handle_response ⟨401, t⟩) = some PyClass.unauthorizedError) ∧
    (∀ t : String, errClassOf (_handle_response ⟨403, t⟩) = some PyClass.tokenExpiredError) ∧
    (∀ t : String,
       errClassOf (_handle_response ⟨404, t⟩) = some PyClass.powerBIEntityNotFoundError) ∧
    (∀ t : String, errClassOf (_handle_response ⟨429, t⟩) = some PyClass.tooManyRequestsError) ∧
    (∀ t : String, errClassOf (_handle_response ⟨500, t⟩) = some PyClass.internalServerError) ∧
    (∀ t : String, errClassOf (_handle_response ⟨599, t⟩) = some PyClass.apiError) ∧
    (∀ (transport : Nat → Attempt) (fuel : Nat) (r : Resp) (e : PyExc),
       transport 0 = Attempt.resp r → _handle_response r = Except.error e →
       make_api_get_request transport (fuel + 1) = ⟨Except.error e, 1, []⟩) ∧
    (∀ (transport : Nat → Attempt) (fuel : Nat) (r : Resp) (e : PyExc),
       transport 0 = Attempt.resp r → _handle_response r = Except.error e →
       make_api_delete_request transport (fuel + 1) = ⟨Except.error e, 1, []⟩) ∧
    (∀ (transport : Nat → Attempt) (fuel : Nat) (r : Resp) (e : PyExc),
       transport 0 = Attempt.resp r → _handle_response r = Except.error e →
       isSubclass e.cls PyClass.tooManyRequestsError = false →
       make_api_post_request transport (fuel + 1) = ⟨Except.error e, 1, []⟩) ∧
    (make_api_post_request (fun _ => Attempt.resp ⟨429, "rate limited"⟩) 5 =
       ⟨Except.error ⟨PyClass.apiError, "API request failed after maximum retries."⟩,
        5, [1, 2, 4, 8, 16]⟩) := by
  refine ⟨fun t => rfl, fun t => rfl, fun t => rfl, fun t => rfl, fun t => rfl, fun t => rfl,
    ?_, ?_, ?_, rfl⟩
  · intro transport fuel r e ht he
    unfold make_api_get_request requestLoop
    rw [ht]
    dsimp only
    rw [he]
    simp
  · intro transport fuel r e ht he
    unfold make_api_delete_request requestLoop
    rw [ht]
    dsimp only
    rw [he]
    simp
  · intro transport fuel r e ht he hsub
    unfold make_api_post_request requestLoop
    rw [ht]
    dsimp only
    rw [he]
    simp [hsub]

/-- Claim C1 counterexample: a POST whose transport answers 429 on every
attempt is not raised immediately as `TooManyRequestsError` — with
`max_retries = 2` the loop runs 2 attempts, sleeps 1 and 2 time-units, and
raises the generic exhaustion `APIError` instead. -/
theorem C1_counterexample_post_retries_429 :
    make_api_post_request (fun _ => Attempt.resp ⟨429, "rate limited"⟩) 2 =
      ⟨Except.error ⟨PyClass.apiError, "API request failed after maximum retries."⟩,
       2, [1, 2]⟩ ∧
    PyClass.apiError ≠ PyClass.tooManyRequestsError ∧ (2 : Nat) ≠ 1 :=
  ⟨rfl, by decide, by decide⟩

/-- Claim C2 (amended): `authenticate` re-authenticates once per failed
token-decode with no bound and never gives up after a single attempt — when
the first `k` decode attempts fail and the next succeeds it performs exactly
`k` re-authentications, and while decodes keep failing it has not
terminated. -/
theorem C2_reauthentication_unbounded :
    (∀ k : Nat, authenticateRun (List.replicate k false ++ [true]) = some k) ∧
    (∀ k : Nat, authenticateRun (List.replicate k false) = none) := by
  constructor
  · intro k
    induction k with
    | zero => rfl
    | succ n ih => simp [List.replicate, authenticateRun, ih]
  · intro k
    induction k with
    | zero => rfl
    | succ n ih => simp [List.replicate, authenticateRun, ih]

/-- Claim C2 counterexample: with two consecutive decode failures before a
success, `authenticate` performs two re-authentications, not at most one. -/
theorem C2_counterexample_two_reauthentications :
    authenticateRun [false, false, true] = some 2 ∧ ¬ (2 : Nat) ≤ 1 := by decide

/-- Claim C3: the error hierarchy is not rooted at `APIError` — of the named
error classes only `JSONDecodeError` subclasses `APIError`;
`UnauthorizedError`, `TokenExpiredError`, `TooManyRequestsError`,
`InternalServerError` and `PowerBIEntityNotFoundError` derive directly from
`Exception`, so `except APIError` catches exactly `APIError` and
`JSONDecodeError` and misses every other classified failure (all classes do
derive from `Exception`). -/
theorem C3_hierarchy_not_rooted_at_apierror :
    isSubclass PyClass.unauthorizedError PyClass.apiError = false ∧
    isSubclass PyClass.tokenExpiredError PyClass.apiError = false ∧
    isSubclass PyClass.tooManyRequestsError PyClass.apiError = false ∧
    isSubclass PyClass.internalServerError PyClass.apiError = false ∧
    isSubclass PyClass.powerBIEntityNotFoundError PyClass.apiError = false ∧
    isSubclass PyClass.jsonDecodeError PyClass.apiError = true ∧
    (∀ c : PyClass, isSubclass c PyClass.exception = true) ∧
    (∀ c : PyClass,
       isSubclass c PyClass.apiError =
         (c == PyClass.apiError || c == PyClass.jsonDecodeError)) := by
  refine ⟨rfl, rfl, rfl, rfl, rfl, rfl, fun c => ?_, fun c => ?_⟩ <;> cases c <;> rfl

/-- Claim C4: with `max_retries = 3` and a transport that times out on every
attempt, `make_api_get_request` runs exactly 3 attempts, sleeps 1, 2 and 4
time-units (`2 ** attempt`) after the respective attempts, and raises the
generic `APIError("API request failed after maximum retries.")` with no
classified error. -/
theorem C4_retry_accounting :
    make_api_get_request (fun _ => Attempt.timeout "request timed out") 3 =
      ⟨Except.error ⟨PyClass.apiError, "API request failed after maximum retries."⟩,
       3, [1, 2, 4]⟩ := rfl

/-- Claim C5: entity equality is exactly identity-key equality — `Report` by
`(dataset_id, id)`, `Workspace` by `id`, `User` by `email` — independent of
every other field; in particular two `Report` snapshots with the same
`(datasetId, id)` but different `name` are equal. -/
theorem C5_equality_is_identity_key :
    (∀ a b : Report, pyEqReport a b = true ↔ (a.dataset_id, a.id) = (b.dataset_id, b.id)) ∧
    (∀ a b : Workspace, pyEqWorkspace a b = true ↔ a.id = b.id) ∧
    (∀ a b : User, pyEqUser a b = true ↔ a.email = b.email) ∧
    (pyEqReport reportA reportA_renamed = true ∧ reportA.name ≠ reportA_renamed.name) := by
  refine ⟨fun a b => ?_, fun a b => ?_, fun a b => ?_, by decide, by decide⟩
  · simp [pyEqReport, Prod.ext_iff]
  · simp [pyEqWorkspace]
  · simp [pyEqUser]

/-- Claim C6: when the parsed body of a collection fetch is not a mapping
(for example a JSON array), the fetch raises a `TypeError` and leaves the
object — in particular the target collection attribute — unchanged at its
prior value, for `Workspace.get_reports`, `Workspace.get_users` and
`Service.get_workspaces` alike; concretely, a workspace whose `reports` set
already holds report A keeps exactly that set when `get_reports` receives a
JSON array. -/
theorem C6_nondict_body_fails_state_unchanged :
    (∀ (ws : Workspace) (body : Json), body.isDict = false →
       Workspace.get_reports ws body =
         (Except.error ⟨PyClass.typeError,
            "Failed to get reports from workspace " ++ pyStr ws.name ++ "."⟩, ws)) ∧
    (∀ (ws : Workspace) (body : Json), body.isDict = false →
       Workspace.get_users ws body =
         (Except.error ⟨PyClass.typeError, "The response must be a dictionary."⟩, ws)) ∧
    (∀ (svc : Service) (body : Json), body.isDict = false →
       Service.get_workspaces svc body =
         (Except.error ⟨PyClass.typeError, "The response must be a dictionary."⟩, svc)) ∧
    (errClassOf (Workspace.get_reports wsPrior (Json.jarr [])).1 = some PyClass.typeError ∧
     (Workspace.get_reports wsPrior (Json.jarr [])).2 = wsPrior ∧
     wsPrior.reports = [reportA]) := by
  refine ⟨?_, ?_, ?_, rfl, rfl, rfl⟩
  · intro ws body hb
    cases body with
    | jobj fields => simp [Json.isDict] at hb
    | null => rfl
    | jbool b => rfl
    | jnum n => rfl
    | jstr s => rfl
    | jarr xs => rfl
  · intro ws body hb
    cases body with
    | jobj fields => simp [Json.isDict] at hb
    | null => rfl
    | jbool b => rfl
    | jnum n => rfl
    | jstr s => rfl
    | jarr xs => rfl
  · intro svc body hb
    cases body with
    | jobj fields => simp [Json.isDict] at hb
    | null => rfl
    | jbool b => rfl
    | jnum n => rfl
    | jstr s => rfl
    | jarr xs => rfl

/-- Claim C7: a successful `get_reports` replaces the reports set wholesale
with the set built from the latest response — the result never depends on the
prior set — and concretely, after fetching a body listing reports A and B and
then a body listing only B, the workspace set no longer contains A and still
contains B. -/
theorem C7_fetch_replaces_not_merges :
    (∀ (ws : Workspace) (body : Json) (out : Workspace),
       Workspace.get_reports ws body = (Except.ok (), out) →
       out.reports = ((Workspace.get_reports { ws with reports := [] } body).2).reports) ∧
    (pyMem pyEqReport reportA ((Workspace.get_reports wsSales bodyAB).2).reports = true ∧
     pyMem pyEqReport reportA
       ((Workspace.get_reports ((Workspace.get_reports wsSales bodyAB).2) bodyB).2).reports
         = false ∧
     pyMem pyEqReport reportB
       ((Workspace.get_reports ((Workspace.get_reports wsSales bodyAB).2) bodyB).2).reports
         = true) :=
  ⟨getReports_wholesale, rfl, rfl, rfl⟩

/-- Claim C8 (spec-modelled `SingletonMeta`): every `PbiAPI(...).pbi_api`
access — as performed by `Service.__init__`, `Workspace.__init__` and
`Report.__init__` — returns the same single client, constructed lazily on the
first access: over any sequence of accesses from a fresh process all accesses
yield client 0 and exactly one client is ever constructed (none when there is
no access). -/
theorem C8_one_shared_client :
    (∀ argsList : List (Option String × Option String),
       (pbi_api_accessList argsList freshProc).1 = List.replicate argsList.length 0) ∧
    (∀ argsList : List (Option String × Option String),
       (pbi_api_accessList argsList freshProc).2.clientsConstructed =
         if argsList.length = 0 then 0 else 1) := by
  constructor
  · intro argsList
    cases argsList with
    | nil => rfl
    | cons a rest =>
        simp [pbi_api_accessList, pbi_api_access, freshProc, accessList_stable,
          List.replicate]
  · intro argsList
    cases argsList with
    | nil => rfl
    | cons a rest =>
        simp [pbi_api_accessList, pbi_api_access, freshProc, accessList_stable]

/-- Claim C9: entity hashing is a deterministic function of the identity-key
fields — whatever tuple-hash `h` the interpreter uses — so `hash(a)` is the
same across repeated calls, and equal entities (under the entity `__eq__`)
have equal hashes, for `Report`, `Workspace` and `User`; in particular the
two report snapshots that differ only in `name` hash alike. -/
theorem C9_hash_stability :
    (∀ (h : Option Json × Option Json → Int) (r : Report),
       pyHashReport h r = pyHashReport h r) ∧
    (∀ (h : Option Json × Option Json → Int) (a b : Report),
       pyEqReport a b = true → pyHashReport h a = pyHashReport h b) ∧
    (∀ (h : Option Json → Int) (a b : Workspace),
       pyEqWorkspace a b = true → pyHashWorkspace h a = pyHashWorkspace h b) ∧
    (∀ (h : Option Json → Int) (a b : User),
       pyEqUser a b = true → pyHashUser h a = pyHashUser h b) ∧
    (∀ h : Option Json × Option Json → Int,
       pyHashReport h reportA = pyHashReport h reportA_renamed) := by
  refine ⟨fun h r => rfl, ?_, ?_, ?_, fun h => rfl⟩
  · intro h a b hab
    simp [pyEqReport] at hab
    unfold pyHashReport
    rw [hab.1, hab.2]
  · intro h a b hab
    simp [pyEqWorkspace] at hab
    unfold pyHashWorkspace
    rw [hab]
  · intro h a b hab
    simp [pyEqUser] at hab
    unfold pyHashUser
    rw [hab]

/-- Claim C10: only the statuses 200, 201 and 202 are treated as success —
`_handle_response` returns the response exactly on those statuses and raises
the mapped error on every other status, including other 2xx codes such as
204 — so none of the three request methods ever returns a response whose
status lies outside that set. -/
theorem C10_success_is_200_201_202 :
    (∀ x v : Resp, _handle_response x = Except.ok v →
       v = x ∧ ([200, 201, 202] : List Nat).contains x.status = true) ∧
    (∀ x : Resp, ([200, 201, 202] : List Nat).contains x.status = false →
       errClassOf (_handle_response x) = some (error_handlers x.status).1) ∧
    (∀ (transport : Nat → Attempt) (n : Nat) (r : Resp),
       (make_api_get_request transport n).result = Except.ok r →
       ([200, 201, 202] : List Nat).contains r.status = true) ∧
    (∀ (transport : Nat → Attempt) (n : Nat) (r : Resp),
       (make_api_post_request transport n).result = Except.ok r →
       ([200, 201, 202] : List Nat).contains r.status = true) ∧
    (∀ (transport : Nat → Attempt) (n : Nat) (r : Resp),
       (make_api_delete_request transport n).result = Except.ok r →
       ([200, 201, 202] : List Nat).contains r.status = true) ∧
    (errClassOf (_handle_response ⟨204, "No Content"⟩) = some PyClass.apiError) := by
  refine ⟨handle_ok_status, ?_, ?_, ?_, ?_, rfl⟩
  · intro x hx
    unfold _handle_response
    rw [hx]
    simp [errClassOf]
  · intro transport n r h
    exact requestLoop_ok_status false transport n 0 0 [] r h
  · intro transport n r h
    exact requestLoop_ok_status true transport n 0 0 [] r h
  · intro transport n r h
    exact requestLoop_ok_status false transport n 0 0 [] r h
